import Mathlib

/-!
Shallow embedding of `src/google-drive-mcp/google_drive_mcp.py`.

The program is a FastMCP server exposing three Google Drive tools
(`list_drive_files`, `upload_to_drive`, `create_drive_folder`) on top of a
credential routine `get_drive_service`.  External effects (the token file on
disk, the refresh network exchange, the interactive OAuth flow, the remote
Drive API, the local filesystem) are modelled by an explicit `World` record
fixing each outcome, and each embedded function returns its result together
with the list of `Effect`s it performed, in order.  Python exceptions are
modelled with `Except String`: an `Except.error` is a raised exception whose
payload is the message.
-/

namespace GDrive

/-- Python truthiness of an `Optional[str]`: `None` and `""` are falsy. -/
def pyTruthy : Option String → Bool
  | none => false
  | some s => s ≠ ""

/-- `google.oauth2.credentials.Credentials`, restricted to the fields the
program reads: `token` (access token, may be `None`), `refresh_token`
(may be `None`), and the derived `expired` flag (expiry vs. now), which we
keep as a plain boolean since the program only branches on it. -/
structure Credential where
  token : Option String
  refresh_token : Option String
  expired : Bool
deriving DecidableEq, Repr

/-- `Credentials.valid` in google-auth: a token is present and not expired. -/
def Credential.valid (c : Credential) : Bool :=
  c.token.isSome && !c.expired

/-- Content of the token file at `token_path`: either a well-formed pickle of
a credential, or bytes on which `pickle.load` raises with message `msg`. -/
inductive TokenFile where
  | pickled (c : Credential)
  | garbage (msg : String)
deriving DecidableEq, Repr

/-- A Drive API file resource as returned by `files().list` / `files().create`:
every field is optional because the response is a dict and subscripting a
missing key raises `KeyError`. -/
structure DriveFile where
  id : Option String
  name : Option String
  mimeType : Option String
  webViewLink : Option String
deriving DecidableEq, Repr

/-- The `file_metadata` dict built by the upload and create-folder handlers:
`name` is always set, `mimeType` and `parents` only conditionally. -/
structure FileMetadata where
  name : String
  mimeType : Option String
  parents : Option (List String)
deriving DecidableEq, Repr

/-- Observable effects of one tool invocation, in program order. -/
inductive Effect where
  | refreshCall
  | interactiveFlow
  | saveToken (path : String) (c : Credential)
  | buildService
  | listRequest (pageSize : Int) (fields : String)
  | createRequest (body : FileMetadata) (hasMedia : Bool) (fields : String)
deriving DecidableEq, Repr

deriving instance DecidableEq for Except

/-- The environment of one invocation: the `USERPROFILE` variable, the token
file on disk, the outcome the refresh exchange would have (new access token
or raised message), whether `credentials.json` exists next to the script, the
outcome of `flow.run_local_server`, the outcomes of the two remote API calls,
the set of existing local paths, and the working directory. -/
structure World where
  userprofile : Option String
  tokenFile : Option TokenFile
  refreshOutcome : Except String String
  credentialsFileOk : Bool
  flowOutcome : Except String Credential
  listOutcome : Except String (List DriveFile)
  createOutcome : Except String DriveFile
  existingPaths : List String
  cwd : String
deriving DecidableEq, Repr

/-- `String.startsWith`, computed structurally on the character lists so that
concrete instances reduce inside the kernel. -/
def strStartsWith (s pre : String) : Bool :=
  pre.data.isPrefixOf s.data

/-- `String.endsWith`, computed structurally on the character lists. -/
def strEndsWith (s post : String) : Bool :=
  post.data.reverse.isPrefixOf s.data.reverse

/-- Python `str.split('/')`, computed structurally on the character list:
splitting the empty string yields `[""]`, a trailing separator yields a
trailing empty component. -/
def splitSlashAux : List Char → List Char → List (List Char)
  | [], acc => [acc.reverse]
  | c :: rest, acc =>
    if c = '/' then acc.reverse :: splitSlashAux rest []
    else splitSlashAux rest (c :: acc)

/-- Python `str.split('/')` on strings. -/
def splitSlash (s : String) : List String :=
  (splitSlashAux s.data []).map String.mk

/-- `posixpath.join` for two components: the second replaces the first when
absolute; otherwise they are joined with a separator unless the first is
empty or already ends in one. -/
def os_path_join (a b : String) : String :=
  if strStartsWith b "/" then b
  else if a = "" || strEndsWith a "/" then a ++ b
  else a ++ "/" ++ b

/-- `posixpath.isabs`. -/
def os_path_isabs (p : String) : Bool :=
  strStartsWith p "/"

/-- The component scan of `posixpath.normpath`: drop `""` and `"."`, let
`".."` cancel a previous real component unless at the start of a relative
path or stacked on another `".."`. `slashes` records whether the input was
absolute. -/
def normpathScan (slashes : Nat) (comps : List String) : List String :=
  comps.foldl (fun acc comp =>
    if comp = "" || comp = "." then acc
    else if comp ≠ ".." || (slashes = 0 && acc = []) || acc.getLast? = some ".." then
      acc ++ [comp]
    else acc.dropLast) []

/-- `posixpath.normpath`. -/
def posix_normpath (path : String) : String :=
  if path = "" then "."
  else
    let slashes : Nat :=
      if strStartsWith path "/" then
        if strStartsWith path "//" && !strStartsWith path "///" then 2 else 1
      else 0
    let comps := normpathScan slashes (splitSlash path)
    let out := String.join (List.replicate slashes "/") ++ String.intercalate "/" comps
    if out = "" then "." else out

/-- `posixpath.abspath` against an explicit working directory. -/
def os_path_abspath (cwd p : String) : String :=
  posix_normpath (if os_path_isabs p then p else os_path_join cwd p)

/-- `posixpath.basename`: everything after the last separator. -/
def os_path_basename (p : String) : String :=
  ((splitSlash p).getLast?).getD p

/-- Line 40: `os.path.join(os.environ.get('USERPROFILE', ''), '.google_drive_token.pickle')`. -/
def token_path (w : World) : String :=
  os_path_join (w.userprofile.getD "") ".google_drive_token.pickle"

/-- Lines 44–46: `pickle.load` of the token file if it exists; a garbage file
raises, a missing file leaves `creds = None`. -/
def loadToken : Option TokenFile → Except String (Option Credential)
  | none => Except.ok none
  | some (TokenFile.pickled c) => Except.ok (some c)
  | some (TokenFile.garbage msg) => Except.error msg

/-- The Drive client handle returned by `build('drive', 'v3', ...)`, bound to
the credential it was built with. -/
structure DriveService where
  creds : Credential
deriving DecidableEq, Repr

/-- Message of the `FileNotFoundError` raised by
`InstalledAppFlow.from_client_secrets_file` when `credentials.json` is absent. -/
def credentialsMissingMsg : String :=
  "FileNotFoundError: credentials.json"

/-- Lines 52–60, the `else` branch: read `credentials.json` (raising if it is
missing), run the interactive flow (which may itself raise), then persist the
fresh credential and build the client. -/
def interactiveAndSave (w : World) (path : String) :
    Except String DriveService × List Effect :=
  if !w.credentialsFileOk then
    (Except.error credentialsMissingMsg, [])
  else
    match w.flowOutcome with
    | Except.error e => (Except.error e, [Effect.interactiveFlow])
    | Except.ok c =>
        (Except.ok ⟨c⟩,
         [Effect.interactiveFlow, Effect.saveToken path c, Effect.buildService])

/-- Lines 38–63, `get_drive_service`: load the stored credential; return it
directly when valid; when expired with a truthy refresh token, refresh it
(raising on refresh failure) and persist; otherwise run the interactive flow
and persist; finally build the client handle. -/
def get_drive_service (w : World) : Except String DriveService × List Effect :=
  let path := token_path w
  match loadToken w.tokenFile with
  | Except.error e => (Except.error e, [])
  | Except.ok none => interactiveAndSave w path
  | Except.ok (some c) =>
      if c.valid then
        (Except.ok ⟨c⟩, [Effect.buildService])
      else if c.expired && pyTruthy c.refresh_token then
        match w.refreshOutcome with
        | Except.error e => (Except.error e, [Effect.refreshCall])
        | Except.ok newTok =>
            let c2 : Credential := { c with token := some newTok, expired := false }
            (Except.ok ⟨c2⟩,
             [Effect.refreshCall, Effect.saveToken path c2, Effect.buildService])
      else interactiveAndSave w path

/-- Subscripting a response dict: `d[k]` raises `KeyError` when absent. -/
def keyGet (o : Option String) (k : String) : Except String String :=
  match o with
  | some v => Except.ok v
  | none => Except.error ("KeyError: " ++ k)

/-- The `fields` argument of the list request, line 88. -/
def listFields : String :=
  "files(id, name, mimeType, webViewLink)"

/-- Lines 96–101: the enumeration loop of `list_drive_files`, starting at
index 1; `file['name']` and `file['id']` raise on a missing key, the link
line is emitted only when `webViewLink` is present. -/
def formatEntries : Nat → List DriveFile → Except String String
  | _, [] => Except.ok ""
  | idx, f :: rest => do
    let n ← keyGet f.name "name"
    let i ← keyGet f.id "id"
    let link :=
      match f.webViewLink with
      | some l => "   Link: " ++ l ++ "\n"
      | none => ""
    let tail ← formatEntries (idx + 1) rest
    Except.ok (toString idx ++ ". " ++ n ++ "\n   ID: " ++ i ++ "\n" ++ link ++ "\n" ++ tail)

/-- Lines 81–103, the body of `list_drive_files` inside its `try`: clamp the
page size, acquire the service, issue the list request, and format the
result. -/
def list_drive_files_body (w : World) (page_size : Int) :
    Except String String × List Effect :=
  let ps := if page_size > 100 then 100 else page_size
  match get_drive_service w with
  | (Except.error e, effs) => (Except.error e, effs)
  | (Except.ok _svc, effs) =>
      let effs2 := effs ++ [Effect.listRequest ps listFields]
      match w.listOutcome with
      | Except.error e => (Except.error e, effs2)
      | Except.ok files =>
          if files.isEmpty then
            (Except.ok "No files found in Google Drive.", effs2)
          else
            match formatEntries 1 files with
            | Except.error e => (Except.error e, effs2)
            | Except.ok body =>
                (Except.ok ("Found " ++ toString files.length ++ " files:\n\n" ++ body),
                 effs2)

/-- Lines 70–105, `list_drive_files`: the body wrapped in
`try ... except Exception as e: return f"Error listing files: ..."`. -/
def list_drive_files (w : World) (page_size : Int) : String × List Effect :=
  match list_drive_files_body w page_size with
  | (Except.ok s, effs) => (s, effs)
  | (Except.error e, effs) => ("Error listing files: " ++ e, effs)

/-- Lines 121–122: a relative `file_path` is resolved with `os.path.abspath`
against the working directory; an absolute one is kept verbatim. -/
def resolveUploadPath (cwd p : String) : String :=
  if os_path_isabs p then p else os_path_abspath cwd p

/-- The `fields` argument of the upload create request, line 137. -/
def uploadFields : String :=
  "id, name, webViewLink"

/-- Lines 120–140, the body of `upload_to_drive` inside its `try`: resolve
the path, fail fast when it does not exist, else acquire the service, build
the metadata (with `parents` only for a truthy `folder_id`), issue the create
request with media, and format the confirmation. -/
def upload_to_drive_body (w : World) (file_path folder_id : String) :
    Except String String × List Effect :=
  let fp := resolveUploadPath w.cwd file_path
  if !(w.existingPaths.contains fp) then
    (Except.ok ("File not found: " ++ fp), [])
  else
    match get_drive_service w with
    | (Except.error e, effs) => (Except.error e, effs)
    | (Except.ok _svc, effs) =>
        let meta : FileMetadata :=
          { name := os_path_basename fp
            mimeType := none
            parents := if folder_id ≠ "" then some [folder_id] else none }
        let effs2 := effs ++ [Effect.createRequest meta true uploadFields]
        match w.createOutcome with
        | Except.error e => (Except.error e, effs2)
        | Except.ok f =>
            match f.name with
            | none => (Except.error "KeyError: name", effs2)
            | some n =>
                (Except.ok ("✓ File uploaded!\nName: " ++ n ++ "\nLink: "
                    ++ f.webViewLink.getD "N/A"), effs2)

/-- Lines 108–142, `upload_to_drive`: the body wrapped in
`try ... except Exception as e: return f"Error uploading file: ..."`. -/
def upload_to_drive (w : World) (file_path folder_id : String) :
    String × List Effect :=
  match upload_to_drive_body w file_path folder_id with
  | (Except.ok s, effs) => (s, effs)
  | (Except.error e, effs) => ("Error uploading file: " ++ e, effs)

/-- The `fields` argument of the folder create request, line 169. -/
def createFolderFields : String :=
  "id, name"

/-- The reserved folder mime type, line 161. -/
def folderMime : String :=
  "application/vnd.google-apps.folder"

/-- Lines 157–172, the body of `create_drive_folder` inside its `try`:
acquire the service, build the folder metadata (with `parents` only for a
truthy `parent_id`), issue the create request, and format the confirmation
(`folder['name']` before `folder['id']`). -/
def create_drive_folder_body (w : World) (folder_name parent_id : String) :
    Except String String × List Effect :=
  match get_drive_service w with
  | (Except.error e, effs) => (Except.error e, effs)
  | (Except.ok _svc, effs) =>
      let meta : FileMetadata :=
        { name := folder_name
          mimeType := some folderMime
          parents := if parent_id ≠ "" then some [parent_id] else none }
      let effs2 := effs ++ [Effect.createRequest meta false createFolderFields]
      match w.createOutcome with
      | Except.error e => (Except.error e, effs2)
      | Except.ok f =>
          match f.name, f.id with
          | none, _ => (Except.error "KeyError: name", effs2)
          | some _, none => (Except.error "KeyError: id", effs2)
          | some n, some i =>
              (Except.ok ("✓ Folder created!\nName: " ++ n ++ "\nID: " ++ i), effs2)

/-- Lines 145–174, `create_drive_folder`: the body wrapped in
`try ... except Exception as e: return f"Error creating folder: ..."`. -/
def create_drive_folder (w : World) (folder_name parent_id : String) :
    String × List Effect :=
  match create_drive_folder_body w folder_name parent_id with
  | (Except.ok s, effs) => (s, effs)
  | (Except.error e, effs) => ("Error creating folder: " ++ e, effs)

/-- A baseline world used by concrete witnesses: no stored token, a working
`credentials.json`, a flow that succeeds, an empty Drive. -/
def baseW : World :=
  { userprofile := some "/home/user"
    tokenFile := none
    refreshOutcome := Except.error "invalid_grant"
    credentialsFileOk := true
    flowOutcome := Except.ok { token := some "fresh", refresh_token := some "frt", expired := false }
    listOutcome := Except.ok []
    createOutcome := Except.error "api unreachable"
    existingPaths := []
    cwd := "/work" }

/-- A stored credential that is expired and carries a refresh token. -/
def expiredRefreshable : Credential :=
  { token := some "old-access", refresh_token := some "rt", expired := true }

/-- A stored credential that is currently valid. -/
def validCred : Credential :=
  { token := some "access", refresh_token := some "rt", expired := false }

/-- Concrete world: stored expired refreshable credential, refresh succeeds. -/
def wRefreshOk : World :=
  { baseW with tokenFile := some (TokenFile.pickled expiredRefreshable)
               refreshOutcome := Except.ok "new-access" }

/-- Concrete world: stored valid credential. -/
def wValid : World :=
  { baseW with tokenFile := some (TokenFile.pickled validCred) }

/-- Concrete world: stored expired refreshable credential, refresh raises. -/
def wRefreshFail : World :=
  { baseW with tokenFile := some (TokenFile.pickled expiredRefreshable) }

/-- Concrete world: token file present but not unpicklable. -/
def wGarbage : World :=
  { baseW with tokenFile := some (TokenFile.garbage "UnpicklingError: invalid load key") }

/-- Concrete world: no token file at all. -/
def wNoToken : World := baseW

/-- Concrete world: no token file and no `credentials.json`; the upload
source path exists locally. -/
def wNoConfig : World :=
  { baseW with credentialsFileOk := false
               existingPaths := ["/work/a.txt"] }

/-- Concrete world: a valid stored credential but an unreachable Drive API,
so every remote request raises; the upload source path exists locally. -/
def wApiDown : World :=
  { baseW with tokenFile := some (TokenFile.pickled validCred)
               listOutcome := Except.error "api unreachable"
               existingPaths := ["/work/a.txt"] }

/-- Effect trace of the list handler on `wApiDown`. -/
def apiDownTrace : List Effect :=
  [Effect.buildService, Effect.listRequest 10 listFields]

/-- Effect trace of the upload handler on `wApiDown`. -/
def apiDownCreateTrace : List Effect :=
  [Effect.buildService,
   Effect.createRequest { name := "a.txt", mimeType := none, parents := none }
     true uploadFields]

/-- Effect trace of the create-folder handler on `wApiDown`. -/
def apiDownFolderTrace : List Effect :=
  [Effect.buildService,
   Effect.createRequest { name := "reports", mimeType := some folderMime, parents := none }
     false createFolderFields]

/-- Concrete world: `USERPROFILE` unset, no stored token, interactive flow
succeeds. -/
def wNoProfile : World :=
  { baseW with userprofile := none }

/-! ### Helper lemmas -/

/-- Every effect of `get_drive_service` is a refresh, an interactive flow, a
service build, or a save to the token path; in particular it never issues a
list or create request, and never saves anywhere but `token_path`. -/
theorem mem_get_drive_service_effects (w : World) :
    ∀ e ∈ (get_drive_service w).2,
      e = Effect.refreshCall ∨ e = Effect.interactiveFlow ∨ e = Effect.buildService ∨
      ∃ c, e = Effect.saveToken (token_path w) c := by
  intro e he
  unfold get_drive_service interactiveAndSave at he
  rcases w.tokenFile with _ | (c | m) <;> simp only [loadToken] at he <;>
    repeat' split at he <;> aesop

/-- The wrapped handler reports the same effect trace as its body. -/
theorem list_drive_files_effects (w : World) (ps : Int) :
    (list_drive_files w ps).2 = (list_drive_files_body w ps).2 := by
  unfold list_drive_files
  rcases h : list_drive_files_body w ps with ⟨r, effs⟩
  rcases r <;> simp

/-- The wrapped handler reports the same effect trace as its body. -/
theorem upload_to_drive_effects (w : World) (fp fid : String) :
    (upload_to_drive w fp fid).2 = (upload_to_drive_body w fp fid).2 := by
  unfold upload_to_drive
  rcases h : upload_to_drive_body w fp fid with ⟨r, effs⟩
  rcases r <;> simp

/-- The wrapped handler reports the same effect trace as its body. -/
theorem create_drive_folder_effects (w : World) (fn pid : String) :
    (create_drive_folder w fn pid).2 = (create_drive_folder_body w fn pid).2 := by
  unfold create_drive_folder
  rcases h : create_drive_folder_body w fn pid with ⟨r, effs⟩
  rcases r <;> simp

/-- The trace of the list body is the provider trace, possibly followed by
the single list request carrying the clamped page size. -/
theorem list_body_effects (w : World) (ps : Int) :
    (list_drive_files_body w ps).2 = (get_drive_service w).2 ∨
    (list_drive_files_body w ps).2 =
      (get_drive_service w).2 ++
        [Effect.listRequest (if ps > 100 then 100 else ps) listFields] := by
  unfold list_drive_files_body
  rcases hg : get_drive_service w with ⟨r, effs⟩
  rcases r with e | svc
  · exact Or.inl rfl
  · right
    rcases ho : w.listOutcome with e | files
    · rfl
    · by_cases hf : files = []
      · simp [hf]
      · rcases hfe : formatEntries 1 files with e | body <;> simp [hf, hfe]

/-- The trace of the create-folder body is the provider trace, possibly
followed by the single create request carrying the folder metadata. -/
theorem create_folder_body_effects (w : World) (fn pid : String) :
    (create_drive_folder_body w fn pid).2 = (get_drive_service w).2 ∨
    (create_drive_folder_body w fn pid).2 =
      (get_drive_service w).2 ++
        [Effect.createRequest
          { name := fn, mimeType := some folderMime,
            parents := if pid ≠ "" then some [pid] else none }
          false createFolderFields] := by
  unfold create_drive_folder_body
  rcases hg : get_drive_service w with ⟨r, effs⟩
  rcases r with e | svc
  · exact Or.inl rfl
  · right
    rcases ho : w.createOutcome with e | f
    · rfl
    · rcases hn : f.name with _ | n <;> rcases hi : f.id with _ | i <;> simp [hn, hi]

/-! ### Claims -/

/-- C1: for every stored credential whose access token is expired and which
carries a (truthy) refresh token, and whose refresh exchange succeeds,
`get_drive_service` issues exactly one refresh call, runs no interactive
authorization flow, persists the refreshed credential back to the token file,
and returns a service built over the refreshed credential. -/
theorem C1_expired_refreshable_refreshes_once (w : World) (c : Credential) (newTok : String)
    (hload : w.tokenFile = some (TokenFile.pickled c))
    (hexp : c.expired = true)
    (hrt : pyTruthy c.refresh_token = true)
    (hok : w.refreshOutcome = Except.ok newTok) :
    (get_drive_service w).2.count Effect.refreshCall = 1 ∧
    Effect.interactiveFlow ∉ (get_drive_service w).2 ∧
    Effect.saveToken (token_path w) { c with token := some newTok, expired := false }
      ∈ (get_drive_service w).2 ∧
    (get_drive_service w).1 =
      Except.ok ⟨{ c with token := some newTok, expired := false }⟩ := by
  have hvalid : c.valid = false := by simp [Credential.valid, hexp]
  have h : get_drive_service w =
      (Except.ok ⟨{ c with token := some newTok, expired := false }⟩,
       [Effect.refreshCall,
        Effect.saveToken (token_path w) { c with token := some newTok, expired := false },
        Effect.buildService]) := by
    simp [get_drive_service, loadToken, hload, hvalid, hexp, hrt, hok]
  refine ⟨?_, ?_, ?_, ?_⟩ <;> simp [h, List.count_cons]

/-- Witness for C1: a concrete expired, refreshable stored credential with a
successful refresh exchange. -/
theorem C1_witness :
    (get_drive_service wRefreshOk).2.count Effect.refreshCall = 1 ∧
    Effect.interactiveFlow ∉ (get_drive_service wRefreshOk).2 ∧
    Effect.saveToken (token_path wRefreshOk)
        { expiredRefreshable with token := some "new-access", expired := false }
      ∈ (get_drive_service wRefreshOk).2 ∧
    (get_drive_service wRefreshOk).1 =
      Except.ok ⟨{ expiredRefreshable with token := some "new-access", expired := false }⟩ :=
  C1_expired_refreshable_refreshes_once wRefreshOk expiredRefreshable "new-access"
    rfl rfl (by decide) rfl

/-- C2: for every stored credential that is valid, `get_drive_service`
returns a service over it immediately: no refresh, no interactive flow, and
no write of the token file. -/
theorem C2_valid_credential_no_side_effects (w : World) (c : Credential)
    (hload : w.tokenFile = some (TokenFile.pickled c))
    (hvalid : c.valid = true) :
    get_drive_service w = (Except.ok ⟨c⟩, [Effect.buildService]) ∧
    Effect.refreshCall ∉ (get_drive_service w).2 ∧
    Effect.interactiveFlow ∉ (get_drive_service w).2 ∧
    ∀ p cc, Effect.saveToken p cc ∉ (get_drive_service w).2 := by
  have h : get_drive_service w = (Except.ok ⟨c⟩, [Effect.buildService]) := by
    simp [get_drive_service, loadToken, hload, hvalid]
  refine ⟨h, ?_, ?_, ?_⟩ <;> simp [h]

/-- Witness for C2: a concrete valid stored credential. -/
theorem C2_witness :
    get_drive_service wValid = (Except.ok ⟨validCred⟩, [Effect.buildService]) ∧
    Effect.refreshCall ∉ (get_drive_service wValid).2 ∧
    Effect.interactiveFlow ∉ (get_drive_service wValid).2 ∧
    ∀ p cc, Effect.saveToken p cc ∉ (get_drive_service wValid).2 :=
  C2_valid_credential_no_side_effects wValid validCred rfl (by decide)

/-- C3 counterexample: with a stored expired refreshable credential whose
refresh exchange fails, `get_drive_service` runs no interactive flow,
persists nothing, and propagates the refresh error to its caller — refuting
the claimed silent fallback to re-authorization. -/
theorem C3_counterexample :
    Effect.interactiveFlow ∉ (get_drive_service wRefreshFail).2 ∧
    (∀ p c, Effect.saveToken p c ∉ (get_drive_service wRefreshFail).2) ∧
    (get_drive_service wRefreshFail).1 = Except.error "invalid_grant" := by
  have h : get_drive_service wRefreshFail =
      (Except.error "invalid_grant", [Effect.refreshCall]) := by rfl
  refine ⟨?_, ?_, ?_⟩ <;> simp [h]

/-- C3 amended: when the refresh exchange fails, `get_drive_service` raises
the refresh error after exactly the one refresh call — no interactive flow,
no persistence; a tool handler calling it catches the error and returns it
as its Error text. -/
theorem C3_refresh_failure_propagates (w : World) (c : Credential) (e : String) (ps : Int)
    (hload : w.tokenFile = some (TokenFile.pickled c))
    (hexp : c.expired = true)
    (hrt : pyTruthy c.refresh_token = true)
    (herr : w.refreshOutcome = Except.error e) :
    get_drive_service w = (Except.error e, [Effect.refreshCall]) ∧
    list_drive_files w ps = ("Error listing files: " ++ e, [Effect.refreshCall]) := by
  have hvalid : c.valid = false := by simp [Credential.valid, hexp]
  have h : get_drive_service w = (Except.error e, [Effect.refreshCall]) := by
    simp [get_drive_service, loadToken, hload, hvalid, hexp, hrt, herr]
  refine ⟨h, ?_⟩
  simp [list_drive_files, list_drive_files_body, h]

/-- Witness for the amended C3 at a concrete world. -/
theorem C3_amended_witness :
    get_drive_service wRefreshFail = (Except.error "invalid_grant", [Effect.refreshCall]) ∧
    list_drive_files wRefreshFail 10 =
      ("Error listing files: invalid_grant", [Effect.refreshCall]) :=
  C3_refresh_failure_propagates wRefreshFail expiredRefreshable "invalid_grant" 10
    rfl rfl (by decide) rfl

/-- C4 counterexample: with a token file whose contents fail to deserialize,
`get_drive_service` raises the deserialization error and runs no interactive
authorization — refuting the claim that such a file is treated as absent and
never raises. -/
theorem C4_counterexample :
    (get_drive_service wGarbage).1 = Except.error "UnpicklingError: invalid load key" ∧
    Effect.interactiveFlow ∉ (get_drive_service wGarbage).2 ∧
    get_drive_service wGarbage ≠ get_drive_service wNoToken := by
  have h : get_drive_service wGarbage =
      (Except.error "UnpicklingError: invalid load key", []) := by rfl
  exact ⟨by simp [h], by simp [h], by decide⟩

/-- C4 amended: a token file that fails to deserialize makes
`get_drive_service` raise the deserialization error before any effect; the
error is not treated as an absent file and no interactive flow runs, and a
tool handler calling it returns the error as its Error text. -/
theorem C4_deserialization_failure_raises (w : World) (msg : String) (ps : Int)
    (hload : w.tokenFile = some (TokenFile.garbage msg)) :
    get_drive_service w = (Except.error msg, []) ∧
    list_drive_files w ps = ("Error listing files: " ++ msg, []) := by
  have h : get_drive_service w = (Except.error msg, []) := by
    simp [get_drive_service, loadToken, hload]
  refine ⟨h, ?_⟩
  simp [list_drive_files, list_drive_files_body, h]

/-- Witness for the amended C4 at a concrete world. -/
theorem C4_amended_witness :
    get_drive_service wGarbage = (Except.error "UnpicklingError: invalid load key", []) ∧
    list_drive_files wGarbage 10 =
      ("Error listing files: UnpicklingError: invalid load key", []) :=
  C4_deserialization_failure_raises wGarbage "UnpicklingError: invalid load key" 10 rfl

/-- C5 counterexample: with `credentials.json` absent, each of the three
tool handlers catches the configuration error and returns it as its wrapped
Error text string — refuting the claim that this error escapes the handlers'
text-formatting as a raised exception. -/
theorem C5_counterexample :
    (list_drive_files wNoConfig 10).1 =
      "Error listing files: " ++ credentialsMissingMsg ∧
    (upload_to_drive wNoConfig "a.txt" "").1 =
      "Error uploading file: " ++ credentialsMissingMsg ∧
    (create_drive_folder wNoConfig "reports" "").1 =
      "Error creating folder: " ++ credentialsMissingMsg := by
  refine ⟨?_, ?_, ?_⟩ <;> rfl

/-- C5 amended: when `credentials.json` is absent and interactive
authorization would be needed, `get_drive_service` itself raises the
configuration error, but every tool handler calls it inside its guarded
region, so the error is caught there and returned as the handler's Error
text response; it does not escape a tool handler. -/
theorem C5_config_missing_is_text_formatted (w : World) (ps : Int) (fp fid fn pid : String)
    (hload : w.tokenFile = none)
    (hcfg : w.credentialsFileOk = false) :
    get_drive_service w = (Except.error credentialsMissingMsg, []) ∧
    list_drive_files w ps = ("Error listing files: " ++ credentialsMissingMsg, []) ∧
    create_drive_folder w fn pid =
      ("Error creating folder: " ++ credentialsMissingMsg, []) ∧
    (resolveUploadPath w.cwd fp ∈ w.existingPaths →
      upload_to_drive w fp fid =
        ("Error uploading file: " ++ credentialsMissingMsg, [])) := by
  have h : get_drive_service w = (Except.error credentialsMissingMsg, []) := by
    simp [get_drive_service, loadToken, hload, interactiveAndSave, hcfg]
  refine ⟨h, ?_, ?_, ?_⟩
  · simp [list_drive_files, list_drive_files_body, h]
  · simp [create_drive_folder, create_drive_folder_body, h]
  · intro hex
    simp [upload_to_drive, upload_to_drive_body, h, hex]

/-- Witness for the amended C5 at a concrete world. -/
theorem C5_amended_witness :
    get_drive_service wNoConfig = (Except.error credentialsMissingMsg, []) ∧
    list_drive_files wNoConfig 10 =
      ("Error listing files: " ++ credentialsMissingMsg, []) ∧
    create_drive_folder wNoConfig "reports" "" =
      ("Error creating folder: " ++ credentialsMissingMsg, []) ∧
    (resolveUploadPath wNoConfig.cwd "a.txt" ∈ wNoConfig.existingPaths →
      upload_to_drive wNoConfig "a.txt" "" =
        ("Error uploading file: " ++ credentialsMissingMsg, [])) :=
  C5_config_missing_is_text_formatted wNoConfig 10 "a.txt" "" "reports" "" rfl rfl

/-- C6: whenever a tool handler's body raises, the handler catches the error
and completes with the corresponding prefixed human-readable string — "Error
listing files:", "Error uploading file:", "Error creating folder:" — and the
same effect trace; the handlers themselves are total string-returning
functions, so no such failure escapes them. -/
theorem C6_handlers_wrap_errors (w : World) (ps : Int) (fp fid fn pid e : String)
    (effs : List Effect) :
    (list_drive_files_body w ps = (Except.error e, effs) →
      list_drive_files w ps = ("Error listing files: " ++ e, effs)) ∧
    (upload_to_drive_body w fp fid = (Except.error e, effs) →
      upload_to_drive w fp fid = ("Error uploading file: " ++ e, effs)) ∧
    (create_drive_folder_body w fn pid = (Except.error e, effs) →
      create_drive_folder w fn pid = ("Error creating folder: " ++ e, effs)) := by
  refine ⟨?_, ?_, ?_⟩ <;> intro h <;>
    simp [list_drive_files, upload_to_drive, create_drive_folder, h]

/-- Witness for C6: a concrete world whose Drive API is down, so all three
bodies raise and all three handlers return the wrapped text. -/
theorem C6_witness :
    list_drive_files_body wApiDown 10 = (Except.error "api unreachable", apiDownTrace) ∧
    list_drive_files wApiDown 10 =
      ("Error listing files: api unreachable", apiDownTrace) ∧
    upload_to_drive wApiDown "a.txt" "" =
      ("Error uploading file: api unreachable", apiDownCreateTrace) ∧
    create_drive_folder wApiDown "reports" "" =
      ("Error creating folder: api unreachable", apiDownFolderTrace) := by
  refine ⟨rfl, ?_, ?_, ?_⟩
  · exact (C6_handlers_wrap_errors wApiDown 10 "a.txt" "" "reports" ""
      "api unreachable" apiDownTrace).1 rfl
  · exact (C6_handlers_wrap_errors wApiDown 10 "a.txt" "" "reports" ""
      "api unreachable" apiDownCreateTrace).2.1 rfl
  · exact (C6_handlers_wrap_errors wApiDown 10 "a.txt" "" "reports" ""
      "api unreachable" apiDownFolderTrace).2.2 rfl

/-- C7: every list request actually issued by `list_drive_files` carries a
page size equal to the input clamped to 100 from above: 100 when the input
exceeds 100, the unchanged input otherwise (no lower-bound clamp). -/
theorem C7_page_size_clamped (w : World) (ps ps0 : Int) (fs : String)
    (h : Effect.listRequest ps0 fs ∈ (list_drive_files w ps).2) :
    ps0 = if ps > 100 then 100 else ps := by
  rw [list_drive_files_effects] at h
  rcases list_body_effects w ps with hb | hb <;> rw [hb] at h
  · rcases mem_get_drive_service_effects w _ h with h1 | h1 | h1 | ⟨c, h1⟩ <;> simp_all
  · rcases List.mem_append.1 h with h1 | h1
    · rcases mem_get_drive_service_effects w _ h1 with h2 | h2 | h2 | ⟨c, h2⟩ <;> simp_all
    · simp at h1
      exact h1.1

/-- Witness for C7: a call with `page_size = 150` issues a request with page
size 100, and a call with `page_size = 7` issues one with page size 7. -/
theorem C7_witness :
    Effect.listRequest 100 listFields ∈ (list_drive_files wApiDown 150).2 ∧
    ((100 : Int) = if (150 : Int) > 100 then 100 else 150) ∧
    Effect.listRequest 7 listFields ∈ (list_drive_files wApiDown 7).2 :=
  ⟨by decide, C7_page_size_clamped wApiDown 150 100 listFields (by decide), by decide⟩

/-- C8: uploading a path that does not exist locally (after resolution of a
relative path against the working directory) returns the text message naming
the resolved path and performs no effect at all: no service is built and no
remote request is issued. -/
theorem C8_upload_missing_path (w : World) (file_path folder_id : String)
    (h : w.existingPaths.contains (resolveUploadPath w.cwd file_path) = false) :
    upload_to_drive w file_path folder_id =
      ("File not found: " ++ resolveUploadPath w.cwd file_path, []) := by
  have hb : upload_to_drive_body w file_path folder_id =
      (Except.ok ("File not found: " ++ resolveUploadPath w.cwd file_path), []) := by
    unfold upload_to_drive_body
    simp only [h]
    rfl
  simp [upload_to_drive, hb]

/-- Witness for C8: `a.txt` relative to working directory `/work` resolves to
the absolute path `/work/a.txt`, which does not exist, so the handler answers
with the resolved path and an empty effect trace. -/
theorem C8_witness :
    baseW.existingPaths.contains (resolveUploadPath baseW.cwd "a.txt") = false ∧
    upload_to_drive baseW "a.txt" "folder1" =
      ("File not found: " ++ resolveUploadPath baseW.cwd "a.txt", []) ∧
    resolveUploadPath baseW.cwd "a.txt" = "/work/a.txt" ∧
    os_path_isabs (resolveUploadPath baseW.cwd "a.txt") = true :=
  ⟨by decide, C8_upload_missing_path baseW "a.txt" "folder1" (by decide),
   by decide, by decide⟩

/-- C9: every create request issued by `create_drive_folder` carries metadata
whose name is the requested folder name, whose mime type is the reserved
folder marker, and whose parents are absent for an empty `parent_id` and
exactly `[parent_id]` otherwise. -/
theorem C9_folder_parent_metadata (w : World) (fn pid : String)
    (meta : FileMetadata) (hm : Bool) (fs : String)
    (h : Effect.createRequest meta hm fs ∈ (create_drive_folder w fn pid).2) :
    meta.name = fn ∧ meta.mimeType = some folderMime ∧
    meta.parents = (if pid = "" then none else some [pid]) := by
  rw [create_drive_folder_effects] at h
  rcases create_folder_body_effects w fn pid with hb | hb <;> rw [hb] at h
  · rcases mem_get_drive_service_effects w _ h with h1 | h1 | h1 | ⟨c, h1⟩ <;> simp_all
  · rcases List.mem_append.1 h with h1 | h1
    · rcases mem_get_drive_service_effects w _ h1 with h2 | h2 | h2 | ⟨c, h2⟩ <;> simp_all
    · simp at h1
      obtain ⟨hmeta, -, -⟩ := h1
      subst hmeta
      refine ⟨rfl, rfl, ?_⟩
      by_cases hp : pid = "" <;> simp [hp]

/-- Witness for C9: a non-empty `parent_id` produces metadata with exactly
that one parent, and an empty `parent_id` produces metadata with no parents. -/
theorem C9_witness :
    Effect.createRequest
        { name := "reports", mimeType := some folderMime, parents := some ["p1"] }
        false createFolderFields
      ∈ (create_drive_folder wApiDown "reports" "p1").2 ∧
    (FileMetadata.name
        { name := "reports", mimeType := some folderMime, parents := some ["p1"] } = "reports" ∧
      FileMetadata.mimeType
        { name := "reports", mimeType := some folderMime, parents := some ["p1"] } = some folderMime ∧
      FileMetadata.parents
        { name := "reports", mimeType := some folderMime, parents := some ["p1"] } =
        (if ("p1" : String) = "" then none else some ["p1"])) ∧
    Effect.createRequest
        { name := "reports", mimeType := some folderMime, parents := none }
        false createFolderFields
      ∈ (create_drive_folder wApiDown "reports" "").2 :=
  ⟨by decide,
   C9_folder_parent_metadata wApiDown "reports" "p1"
     { name := "reports", mimeType := some folderMime, parents := some ["p1"] }
     false createFolderFields (by decide),
   by decide⟩

/-- C10: when `USERPROFILE` is unset, the token path degenerates to the
relative path `.google_drive_token.pickle` (resolved by the OS against the
process working directory), and every credential save performed by
`get_drive_service` targets exactly that relative path. -/
theorem C10_unset_userprofile_relative_path (w : World)
    (h : w.userprofile = none) :
    token_path w = ".google_drive_token.pickle" ∧
    os_path_isabs (token_path w) = false ∧
    ∀ p c, Effect.saveToken p c ∈ (get_drive_service w).2 →
      p = ".google_drive_token.pickle" := by
  have ht : token_path w = ".google_drive_token.pickle" := by
    unfold token_path
    rw [h]
    rfl
  refine ⟨ht, by rw [ht]; decide, ?_⟩
  intro p c hmem
  rcases mem_get_drive_service_effects w _ hmem with h1 | h1 | h1 | ⟨c2, h1⟩ <;>
    simp_all

/-- Witness for C10: with `USERPROFILE` unset the fresh credential obtained
by the interactive flow is saved under the relative path. -/
theorem C10_witness :
    wNoProfile.userprofile = none ∧
    (token_path wNoProfile = ".google_drive_token.pickle" ∧
      os_path_isabs (token_path wNoProfile) = false ∧
      ∀ p c, Effect.saveToken p c ∈ (get_drive_service wNoProfile).2 →
        p = ".google_drive_token.pickle") ∧
    Effect.saveToken ".google_drive_token.pickle"
        { token := some "fresh", refresh_token := some "frt", expired := false }
      ∈ (get_drive_service wNoProfile).2 :=
  ⟨rfl, C10_unset_userprofile_relative_path wNoProfile rfl, by decide⟩

end GDrive
